import Mathlib

/-!
Verification of the "Places in Time" front-end session logic.

The definitions below are shallow embeddings of the JavaScript/JSX source:

* `GuestState`, `sendPhase1`, `handleResponse`, `handleSend` embed the
  `GuestChat` component's `handleSend` function (guest quota flow).
* `Storage`, `discoverToken`, `requireAuthToken`, `requireAuthNormalize`,
  `authMeNormalize`, `discoverStep` embed the token plumbing in
  `AuthContext.jsx` and `RequireAuth.jsx`.
* `validToken`, `loadTokens` embed the admin console's token validation
  (`static_frontend/admin.js`).
* `installToken`, `arriveReply` embed the `AuthContext` profile-fetch
  effect with its cancellation flag.
* `attemptGuestUpgrade`, `postAuthNav` embed the guest-upgrade handshake
  in `UserLogin.jsx` / `UserRegister`.

JavaScript truthiness of nullable strings (`null` and `""` are falsy) is
modelled by `jsTruthy` on `Option String`.
-/

namespace PlacesInTime

/-- Helper for `jsTrim`: drop leading whitespace characters. -/
def dropLeadingWs : List Char → List Char
  | [] => []
  | c :: cs => if c.isWhitespace then dropLeadingWs cs else c :: cs

/-- JS `String.prototype.trim()`: strip leading and trailing whitespace. -/
def jsTrim (s : String) : String :=
  ⟨(dropLeadingWs (dropLeadingWs s.data).reverse).reverse⟩

/-- JS `a || d` for a nullable string `a` against a string default `d`. -/
def jsOrStr : Option String → String → String
  | none, d => d
  | some s, d => if s = "" then d else s

/-- JS `a || b` for nullable strings: `a` unless `a` is null or empty. -/
def jsOr (a b : Option String) : Option String :=
  match a with
  | none => b
  | some s => if s = "" then b else some s

/-- JS truthiness of a nullable string: `null` and `""` are falsy. -/
def jsTruthy : Option String → Bool
  | none => false
  | some s => s != ""

@[simp] theorem jsTruthy_none : jsTruthy none = false := rfl

@[simp] theorem jsTruthy_some (s : String) : jsTruthy (some s) = (s != "") := rfl

/-! ## Guest chat (`GuestChat` component, `handleSend`) -/

/-- Message author, as in the `role` field of a transcript entry. -/
inductive Role
  | user
  | assistant
deriving DecidableEq, Repr

/-- One transcript entry (`{ role, text }`). -/
structure Msg where
  role : Role
  text : String
deriving DecidableEq, Repr

/-- The component's `boot` state: `"booting" | "ready" | "error"`. -/
inductive BootState
  | booting
  | ready
  | error
deriving DecidableEq, Repr

/-- The local state of the `GuestChat` component. -/
structure GuestState where
  input : String
  messages : List Msg
  qaCount : Nat
  boot : BootState
  status : String
  disabled : Bool
  showModal : Bool
  figureName : Option String
deriving DecidableEq, Repr

/-- `MAX_QUESTIONS` in the source. -/
def MAX_QUESTIONS : Nat := 3

/-- Outcome of the synchronous prefix of `handleSend`, before any fetch. -/
inductive SendPhase
  | noop
  | quotaShort (s : GuestState)
  | inflight (s : GuestState)
deriving Repr

/-- The synchronous prefix of `handleSend`: the guard
`!input.trim() || boot !== "ready" || disabled`, the
`qaCount >= MAX_QUESTIONS` short-circuit, and otherwise the optimistic
append of the user message, the "thinking" status and `setDisabled(true)`
before the `/guest/ask` fetch is issued. -/
def sendPhase1 (s : GuestState) : SendPhase :=
  if jsTrim s.input = "" ∨ s.boot ≠ .ready ∨ s.disabled then .noop
  else if MAX_QUESTIONS ≤ s.qaCount then .quotaShort { s with showModal := true }
  else .inflight { s with
    messages := s.messages ++ [⟨.user, s.input⟩],
    status := jsOrStr s.figureName "Guide" ++ " is thinking…",
    disabled := true }

/-- Result of the `/guest/ask` fetch as seen by `handleSend`. -/
inductive FetchResult
  | ok (answer : Option String)
  | httpError (status : Nat)
  | networkError
deriving DecidableEq, Repr

/-- The response half of `handleSend`: 403/429 show the quota modal,
other non-2xx set a generic error status, success appends the assistant
reply (`data.answer || "(no answer)"`), increments the counter and clears
input and status; a thrown fetch sets the network-error status. -/
def handleResponse (s : GuestState) (r : FetchResult) : GuestState :=
  match r with
  | .httpError st =>
      if st = 403 ∨ st = 429 then { s with showModal := true, disabled := false }
      else { s with
        status := "Error " ++ toString st ++ ": Unable to get an answer.",
        disabled := false }
  | .ok ans =>
      { s with
        messages := s.messages ++ [⟨.assistant, jsOrStr ans "(no answer)"⟩],
        qaCount := s.qaCount + 1,
        status := "",
        disabled := false,
        input := "" }
  | .networkError =>
      { s with status := "Network error. Please try again.", disabled := false }

/-- One complete invocation of `handleSend`, where `r` is the result the
`/guest/ask` fetch would produce if it were issued. -/
def handleSend (s : GuestState) (r : FetchResult) : GuestState :=
  match sendPhase1 s with
  | .noop => s
  | .quotaShort s' => s'
  | .inflight s' => handleResponse s' r

/-- Whether an invocation of `handleSend` from state `s` issues the
`/guest/ask` network request. -/
def sendRequested (s : GuestState) : Bool :=
  match sendPhase1 s with
  | .inflight _ => true
  | _ => false

/-- A sequence of `handleSend` invocations with the given fetch results. -/
def handleSendMany (s : GuestState) : List FetchResult → GuestState
  | [] => s
  | r :: rs => handleSendMany (handleSend s r) rs

/-! ## Token storage (`AuthContext.jsx` discovery, `RequireAuth.jsx`) -/

/-- The browser storage locations the token plumbing reads and writes.
`none` models an absent key (`getItem` returning `null` / no cookie). -/
structure Storage where
  sessionUserToken : Option String
  sessionUserTokenAlt : Option String
  localAccessToken : Option String
  localUserToken : Option String
  cookiePit : Option String
  cookieAccess : Option String
deriving DecidableEq, Repr

/-- The raw `||`-chain inside `AuthContext`'s `discover`:
`sessionStorage.getItem('userToken') || localStorage.getItem('access_token')
|| localStorage.getItem('user_token') || readCookie('pit_access_token')
|| readCookie('access_token')`. -/
def discoverToken (st : Storage) : Option String :=
  jsOr st.sessionUserToken (jsOr st.localAccessToken (jsOr st.localUserToken
    (jsOr st.cookiePit st.cookieAccess)))

/-- The token chain in `RequireAuth`:
`sessionStorage.getItem('userToken') || sessionStorage.getItem('user_token')
|| localStorage.getItem('access_token') || localStorage.getItem('user_token')
|| null`. -/
def requireAuthToken (st : Storage) : Option String :=
  jsOr st.sessionUserToken (jsOr st.sessionUserTokenAlt (jsOr st.localAccessToken
    (jsOr st.localUserToken none)))

/-- The six-step chain stated by the spec for `resolve()` (session primary →
session alternate → local primary → local alternate → cookie primary →
cookie alternate), written from the spec's words for comparison with the
two chains actually in the source. -/
def specResolveChain (st : Storage) : Option String :=
  jsOr st.sessionUserToken (jsOr st.sessionUserTokenAlt (jsOr st.localAccessToken
    (jsOr st.localUserToken (jsOr st.cookiePit (jsOr st.cookieAccess none)))))

/-- `RequireAuth`'s normalization block:
`if(!sessionStorage.getItem('userToken') && localStorage.getItem('access_token'))
  sessionStorage.setItem('userToken', localStorage.getItem('access_token'))`. -/
def requireAuthNormalize (st : Storage) : Storage :=
  if jsTruthy st.sessionUserToken = false ∧ jsTruthy st.localAccessToken = true then
    { st with sessionUserToken := st.localAccessToken }
  else st

/-- The normalization after a successful `/auth/me` fetch in `AuthContext`:
`if(!sessionStorage.getItem('userToken')) sessionStorage.setItem('userToken', token)`. -/
def authMeNormalize (token : String) (st : Storage) : Storage :=
  if jsTruthy st.sessionUserToken then st
  else { st with sessionUserToken := some token }

/-- One pass of `AuthContext`'s `discover` applied to the context token:
`if(t) setToken(prev => prev || t)` where `t` is the discovered chain value. -/
def discoverStep (st : Storage) (tok : Option String) : Option String :=
  if jsTruthy (discoverToken st) then
    (if jsTruthy tok then tok else discoverToken st)
  else tok

/-- C1: with a non-empty trimmed message, in the ready non-disabled state,
a counter at (or past) 3 makes `handleSend` issue no request, show the
quota modal, and leave transcript and counter (indeed all other state)
unchanged. -/
theorem C1_guest_quota_short_circuit (s : GuestState)
    (hin : jsTrim s.input ≠ "") (hb : s.boot = .ready) (hd : s.disabled = false)
    (hq : MAX_QUESTIONS ≤ s.qaCount) :
    sendRequested s = false ∧
    ∀ r, handleSend s r = { s with showModal := true } := by
  have hphase : sendPhase1 s = .quotaShort { s with showModal := true } := by
    unfold sendPhase1
    rw [if_neg, if_pos hq]
    simp [hin, hb, hd]
  refine ⟨?_, ?_⟩
  · unfold sendRequested
    rw [hphase]
  · intro r
    unfold handleSend
    rw [hphase]

theorem C1_guest_quota_short_circuit_witness :
    let s : GuestState :=
      { input := "who are you", messages := [], qaCount := 3, boot := .ready,
        status := "", disabled := false, showModal := false, figureName := none }
    sendRequested s = false ∧
    ∀ r, handleSend s r = { s with showModal := true } :=
  C1_guest_quota_short_circuit _ (by decide) (by decide) (by decide) (by decide)

/-- C2: when a `/guest/ask` request is actually issued (guards passed,
counter below the limit) and the server answers 403 or 429, `handleSend`
shows the quota modal and leaves the question counter unchanged. -/
theorem C2_guest_server_quota_override (s : GuestState) (st : Nat)
    (hin : jsTrim s.input ≠ "") (hb : s.boot = .ready) (hd : s.disabled = false)
    (hq : s.qaCount < MAX_QUESTIONS) (hst : st = 403 ∨ st = 429) :
    sendRequested s = true ∧
    (handleSend s (.httpError st)).showModal = true ∧
    (handleSend s (.httpError st)).qaCount = s.qaCount := by
  have hphase : sendPhase1 s = .inflight { s with
      messages := s.messages ++ [⟨.user, s.input⟩],
      status := jsOrStr s.figureName "Guide" ++ " is thinking…",
      disabled := true } := by
    unfold sendPhase1
    rw [if_neg, if_neg (by omega)]
    simp [hin, hb, hd]
  refine ⟨?_, ?_⟩
  · unfold sendRequested
    rw [hphase]
  · rcases hst with h | h <;> subst h <;>
      simp [handleSend, hphase, handleResponse]

theorem C2_guest_server_quota_override_witness :
    let s : GuestState :=
      { input := "first question", messages := [], qaCount := 0, boot := .ready,
        status := "", disabled := false, showModal := false, figureName := none }
    sendRequested s = true ∧
    (handleSend s (.httpError 429)).showModal = true ∧
    (handleSend s (.httpError 429)).qaCount = 0 :=
  C2_guest_server_quota_override _ 429 (by decide) (by decide) (by decide)
    (by decide) (Or.inr rfl)

/-- C6 counterexample: for a concrete issued request answered with
HTTP 500, the transcript after `handleSend` differs from the transcript
before the call (the user's message was appended and is kept), refuting
"the transcript is unchanged". -/
theorem C6_transcript_changed_counterexample :
    let s : GuestState :=
      { input := "q", messages := [], qaCount := 0, boot := .ready,
        status := "", disabled := false, showModal := false, figureName := none }
    (handleSend s (.httpError 500)).messages ≠ s.messages ∧
    (handleSend s (.httpError 500)).status = "Error 500: Unable to get an answer." ∧
    (handleSend s (.httpError 500)).qaCount = s.qaCount := by
  refine ⟨?_, rfl, rfl⟩
  decide

/-- C6 amended: when an issued `/guest/ask` request is answered with a
non-2xx status other than 403/429, `handleSend` sets the generic
"Error <status>" message, leaves the question counter and the quota modal
unchanged, and the transcript gains exactly the optimistically appended
user message (no assistant reply). -/
theorem C6_guest_error_amended (s : GuestState) (st : Nat)
    (hin : jsTrim s.input ≠ "") (hb : s.boot = .ready) (hd : s.disabled = false)
    (hq : s.qaCount < MAX_QUESTIONS) (h403 : st ≠ 403) (h429 : st ≠ 429) :
    (handleSend s (.httpError st)).status
      = "Error " ++ toString st ++ ": Unable to get an answer." ∧
    (handleSend s (.httpError st)).qaCount = s.qaCount ∧
    (handleSend s (.httpError st)).messages = s.messages ++ [⟨.user, s.input⟩] ∧
    (handleSend s (.httpError st)).showModal = s.showModal := by
  have hphase : sendPhase1 s = .inflight { s with
      messages := s.messages ++ [⟨.user, s.input⟩],
      status := jsOrStr s.figureName "Guide" ++ " is thinking…",
      disabled := true } := by
    unfold sendPhase1
    rw [if_neg, if_neg (by omega)]
    simp [hin, hb, hd]
  simp [handleSend, hphase, handleResponse, h403, h429]

theorem C6_guest_error_amended_witness :
    let s : GuestState :=
      { input := "q", messages := [], qaCount := 1, boot := .ready,
        status := "", disabled := false, showModal := false, figureName := none }
    (handleSend s (.httpError 500)).status = "Error 500: Unable to get an answer." ∧
    (handleSend s (.httpError 500)).qaCount = 1 ∧
    (handleSend s (.httpError 500)).messages = [⟨.user, "q"⟩] ∧
    (handleSend s (.httpError 500)).showModal = false :=
  C6_guest_error_amended _ 500 (by decide) (by decide) (by decide) (by decide)
    (by decide) (by decide)

/-- C9: while a request is in flight (`disabled` is set), any number of
further `handleSend` invocations issue no request and change no state. -/
theorem C9_guest_disabled_noop (s : GuestState) (hd : s.disabled = true) :
    sendRequested s = false ∧
    (∀ r, handleSend s r = s) ∧
    ∀ rs : List FetchResult, handleSendMany s rs = s := by
  have hphase : sendPhase1 s = .noop := by
    unfold sendPhase1
    rw [if_pos]
    exact Or.inr (Or.inr (by rw [hd]))
  have hstep : ∀ r, handleSend s r = s := by
    intro r
    unfold handleSend
    rw [hphase]
  refine ⟨?_, hstep, ?_⟩
  · unfold sendRequested
    rw [hphase]
  · intro rs
    induction rs with
    | nil => rfl
    | cons r rs ih =>
        show handleSendMany (handleSend s r) rs = s
        rw [hstep r, ih]

theorem C9_guest_disabled_noop_witness :
    let s : GuestState :=
      { input := "pending", messages := [⟨.user, "pending"⟩], qaCount := 1,
        boot := .ready, status := "Guide is thinking…", disabled := true,
        showModal := false, figureName := none }
    sendRequested s = false ∧
    (∀ r, handleSend s r = s) ∧
    ∀ rs : List FetchResult, handleSendMany s rs = s :=
  C9_guest_disabled_noop _ (by decide)

/-- C3 counterexample: the spec's six-step resolve chain matches neither
resolver in the source. With a value only under the session-scoped
`user_token` alternate key, `AuthContext`'s discover chain finds nothing
(it never consults that key) while the spec chain resolves it; with a
value only in the primary cookie, `RequireAuth`'s chain finds nothing (it
never consults cookies) while the spec chain resolves it. -/
theorem C3_precedence_counterexample :
    (discoverToken ⟨none, some "tok", none, none, none, none⟩ = none ∧
      specResolveChain ⟨none, some "tok", none, none, none, none⟩ = some "tok") ∧
    (requireAuthToken ⟨none, none, none, none, some "ck", none⟩ = none ∧
      specResolveChain ⟨none, none, none, none, some "ck", none⟩ = some "ck") := by
  decide

/-- C3 amended: `AuthContext`'s discover chain is session `userToken` →
local `access_token` → local `user_token` → cookie `pit_access_token` →
cookie `access_token` (the session `user_token` alternate is never
consulted), and `RequireAuth`'s chain is session `userToken` → session
`user_token` → local `access_token` → local `user_token` (cookies are
never consulted); in both, a present (non-empty) session `userToken`
value wins over everything else, so with session, local and cookie
values simultaneously present, both resolvers return the session value. -/
theorem C3_precedence_amended (st : Storage) (v : Option String)
    (h : jsTruthy st.sessionUserToken = true) :
    discoverToken st = st.sessionUserToken ∧
    requireAuthToken st = st.sessionUserToken ∧
    discoverToken { st with sessionUserTokenAlt := v } = discoverToken st ∧
    requireAuthToken { st with cookiePit := v, cookieAccess := v }
      = requireAuthToken st := by
  obtain ⟨s, hs⟩ : ∃ s, st.sessionUserToken = some s := by
    cases hses : st.sessionUserToken with
    | none => rw [hses] at h; simp [jsTruthy] at h
    | some s => exact ⟨s, rfl⟩
  have hne : s ≠ "" := by
    rw [hs] at h
    simpa [jsTruthy] using h
  refine ⟨?_, ?_, rfl, rfl⟩
  · unfold discoverToken
    rw [hs]
    simp [jsOr, hne]
  · unfold requireAuthToken
    rw [hs]
    simp [jsOr, hne]

theorem C3_precedence_amended_witness :
    discoverToken ⟨some "ses", some "alt", some "loc", some "lu", some "c1", some "c2"⟩
      = some "ses" ∧
    requireAuthToken ⟨some "ses", some "alt", some "loc", some "lu", some "c1", some "c2"⟩
      = some "ses" := by
  have h := C3_precedence_amended
    ⟨some "ses", some "alt", some "loc", some "lu", some "c1", some "c2"⟩ none (by decide)
  exact ⟨h.1, h.2.1⟩

/-- C7 counterexample: with a token present only under the local-storage
`user_token` alternate key, `RequireAuth` resolves it, yet its
normalization block (which copies only `localStorage.access_token`)
leaves the session `userToken` key empty — refuting "after token
resolution the session key contains exactly that token value". -/
theorem C7_normalize_counterexample :
    requireAuthToken ⟨none, none, none, some "tok", none, none⟩ = some "tok" ∧
    (requireAuthNormalize ⟨none, none, none, some "tok", none, none⟩).sessionUserToken
      = none := by
  decide

/-- C7 amended: if a token is present in the local-storage `access_token`
key while the session `userToken` key is empty, `RequireAuth`'s
normalization writes exactly that value into the session key; a token
found only under other lower-precedence keys is not normalized by
`RequireAuth`; and a session key that already holds a non-empty value is
never overwritten, neither by `RequireAuth`'s normalization nor by the
`/auth/me` success normalization in `AuthContext`. -/
theorem C7_normalize_amended (st : Storage) (v tok : String) :
    (jsTruthy st.sessionUserToken = false → st.localAccessToken = some v → v ≠ "" →
      (requireAuthNormalize st).sessionUserToken = some v) ∧
    (jsTruthy st.sessionUserToken = true →
      (requireAuthNormalize st).sessionUserToken = st.sessionUserToken ∧
      (authMeNormalize tok st).sessionUserToken = st.sessionUserToken) ∧
    (jsTruthy st.sessionUserToken = false → jsTruthy st.localAccessToken = false →
      (requireAuthNormalize st).sessionUserToken = st.sessionUserToken) := by
  refine ⟨?_, ?_, ?_⟩
  · intro h1 h2 h3
    have hloc : jsTruthy st.localAccessToken = true := by
      rw [h2]
      simp [jsTruthy, h3]
    simp [requireAuthNormalize, h1, hloc, h2, h3]
  · intro h
    constructor
    · simp [requireAuthNormalize, h]
    · simp [authMeNormalize, h]
  · intro h1 h2
    simp [requireAuthNormalize, h1, h2]

theorem C7_normalize_amended_witness :
    (requireAuthNormalize ⟨none, none, some "tok", none, none, none⟩).sessionUserToken
      = some "tok" ∧
    (requireAuthNormalize ⟨some "keep", none, some "tok", none, none, none⟩).sessionUserToken
      = some "keep" ∧
    (authMeNormalize "new" ⟨some "keep", none, some "tok", none, none, none⟩).sessionUserToken
      = some "keep" :=
  ⟨(C7_normalize_amended ⟨none, none, some "tok", none, none, none⟩ "tok" "new").1
      (by decide) rfl (by decide),
    ((C7_normalize_amended ⟨some "keep", none, some "tok", none, none, none⟩ "tok" "new").2.1
      (by decide)).1,
    ((C7_normalize_amended ⟨some "keep", none, some "tok", none, none, none⟩ "tok" "new").2.1
      (by decide)).2⟩

/-- C10 counterexample: the context token is not write-once with respect
to discovery for every non-null value — with the non-null (but empty,
hence JS-falsy) token `""` in the context and a token in storage,
`discover`'s `setToken(prev => prev || t)` replaces it. -/
theorem C10_discover_counterexample :
    discoverStep ⟨some "B", none, none, none, none, none⟩ (some "") = some "B" ∧
    (some "" : Option String) ≠ none ∧
    (some "B" : Option String) ≠ some "" := by
  decide

/-- C10 amended: once the context holds a non-null, non-empty token,
`discover` never replaces it; discovery only fills a JS-falsy (null or
empty) context token, and then only when the storage chain yields a
truthy value. -/
theorem C10_discover_write_once_amended (st : Storage) (v : String) (hv : v ≠ "") :
    discoverStep st (some v) = some v ∧
    (jsTruthy (discoverToken st) = false → discoverStep st none = none) ∧
    (jsTruthy (discoverToken st) = true → discoverStep st none = discoverToken st) := by
  refine ⟨?_, ?_, ?_⟩
  · by_cases h : jsTruthy (discoverToken st) = true
    · simp [discoverStep, h, hv]
    · simp [discoverStep, h]
  · intro h
    simp [discoverStep, h]
  · intro h
    simp [discoverStep, h]

theorem C10_discover_write_once_amended_witness :
    discoverStep ⟨some "found", none, none, none, none, none⟩ (some "mine") = some "mine" :=
  (C10_discover_write_once_amended ⟨some "found", none, none, none, none, none⟩
    "mine" (by decide)).1

/-! ## Admin console token validation (`static_frontend/admin.js`) -/

/-- The JWT claims `validToken` inspects: `scope` and `exp` (seconds).
`exp := none` models an absent claim; `exp := some 0` is JS-falsy. -/
structure JwtPayload where
  scope : String
  exp : Option Nat
deriving DecidableEq, Repr

/-- A stored token string together with what `parseJwt` yields on it
(`none` when the payload does not parse). -/
structure Tok where
  raw : String
  payload : Option JwtPayload
deriving DecidableEq, Repr

/-- `validToken(tok, scope)` in `admin.js`:
`p && p.scope === scope && p.exp && p.exp * 1000 > Date.now() + 10_000`,
with `now` the current time in milliseconds. -/
def validToken (t : Tok) (scope : String) (now : Nat) : Bool :=
  match t.payload with
  | none => false
  | some p =>
      p.scope == scope &&
      (match p.exp with
        | none => false
        | some e => e != 0 && decide (e * 1000 > now + 10000))

/-- The admin console's in-memory token state. -/
structure AdminState where
  userToken : Option Tok
  adminToken : Option Tok
deriving DecidableEq, Repr

/-- `loadTokens()` in `admin.js`: reads sessionStorage `user_token` and
`admin_token` and commits each only when non-empty and `validToken` holds
for its scope (`"user"` and `"admin"` respectively). -/
def loadTokens (ut adt : Option Tok) (now : Nat) (st : AdminState) : AdminState :=
  let st1 :=
    match ut with
    | some t => if t.raw != "" && validToken t "user" now then
        { st with userToken := some t } else st
    | none => st
  match adt with
  | some t => if t.raw != "" && validToken t "admin" now then
      { st1 with adminToken := some t } else st1
  | none => st1

/-- C8 counterexample: user-scope tokens do undergo expiry validation in
the admin console's token resolution — at a concrete time, `loadTokens`
refuses a stored user-scope token whose `exp` has passed, yet accepts the
same token with a future `exp`, so the stored expiry decides whether the
user token is resolved. -/
theorem C8_user_expiry_checked_counterexample :
    (loadTokens (some ⟨"u.jwt", some ⟨"user", some 1⟩⟩) none 1000000
        ⟨none, none⟩).userToken = none ∧
    (loadTokens (some ⟨"u.jwt", some ⟨"user", some 2000⟩⟩) none 1000000
        ⟨none, none⟩).userToken = some ⟨"u.jwt", some ⟨"user", some 2000⟩⟩ := by
  decide

/-- C8 amended: in the admin console, both stored tokens are checked
against the embedded expiry claim with the 10-second buffer: a stored
user-scope token whose expiry is not more than 10 seconds in the future
is not resolved by `loadTokens`, and a token passes `validToken` for the
admin scope exactly when its payload parses with scope `"admin"` and a
non-zero expiry lying more than 10 seconds in the future. (The SPA-side
resolvers — `discoverToken`, `requireAuthToken` — never inspect expiry.) -/
theorem C8_admin_expiry_amended (t : Tok) (pay : JwtPayload) (e now : Nat)
    (st : AdminState) (hp : t.payload = some pay) (he : pay.exp = some e) :
    (pay.scope = "user" → e * 1000 ≤ now + 10000 →
      (loadTokens (some t) none now st).userToken = st.userToken) ∧
    (validToken t "admin" now = true ↔
      pay.scope = "admin" ∧ e ≠ 0 ∧ e * 1000 > now + 10000) := by
  constructor
  · intro hscope hexp
    have hvalid : validToken t "user" now = false := by
      simp [validToken, hp, he]
      intro _ _
      omega
    simp [loadTokens, hvalid]
  · simp [validToken, hp, he]

theorem C8_admin_expiry_amended_witness :
    (loadTokens (some ⟨"u.jwt", some ⟨"user", some 100⟩⟩) none 1000000
        ⟨none, none⟩).userToken = none ∧
    validToken ⟨"a.jwt", some ⟨"admin", some 2000⟩⟩ "admin" 1000000 = true := by
  have h1 := (C8_admin_expiry_amended ⟨"u.jwt", some ⟨"user", some 100⟩⟩
    ⟨"user", some 100⟩ 100 1000000 ⟨none, none⟩ rfl rfl).1 rfl (by omega)
  have h2 := (C8_admin_expiry_amended ⟨"a.jwt", some ⟨"admin", some 2000⟩⟩
    ⟨"admin", some 2000⟩ 2000 1000000 ⟨none, none⟩ rfl rfl).2.mpr
    ⟨rfl, by omega, by omega⟩
  exact ⟨h1, h2⟩

/-! ## AuthContext profile-fetch effect with cancellation (`AuthContext.jsx`) -/

/-- The profile committed by a successful `/auth/me` fetch
(`{ id: data.user_id, username: data.username, role: data.role }`). -/
structure Profile where
  id : Nat
  username : String
  role : String
deriving DecidableEq, Repr

/-- The slice of `AuthProvider` state the profile-fetch effect commits. -/
structure AuthState where
  user : Option Profile
  error : Option String
  loading : Bool
deriving DecidableEq, Repr

/-- One instance of the token effect: its captured token and its
closure-captured `cancelled` flag. -/
structure EffectRun where
  token : Option String
  cancelled : Bool
deriving DecidableEq, Repr

/-- Result of one `/auth/me` fetch. -/
inductive FetchReply
  | ok (p : Profile)
  | fail (msg : String)
deriving DecidableEq, Repr

/-- The response handler of the effect's `run()`: if the run's `cancelled`
flag is set, nothing is committed (success returns before `setUser`, the
catch checks `!cancelled` before `setError`/`setUser`, the finally checks
`!cancelled` before `setLoading(false)`); otherwise success commits the
user and failure commits the error and clears the user, both ending with
`setLoading(false)`. -/
def applyReply (r : EffectRun) (rep : FetchReply) (s : AuthState) : AuthState :=
  if r.cancelled then s
  else
    match rep with
    | .ok p => { s with user := some p, loading := false }
    | .fail m => { s with user := none, error := some m, loading := false }

/-- The provider as a whole: its committed state plus the effect runs
started so far, in order. -/
structure Sys where
  auth : AuthState
  runs : List EffectRun
deriving DecidableEq, Repr

/-- The effect cleanup `return () => { cancelled = true }`. -/
def cancelRun (r : EffectRun) : EffectRun := { r with cancelled := true }

/-- A token change: React runs the previous effect's cleanup (cancelling
it) and then the new effect body — `if(!token){ setUser(null); return }`
for a falsy token, otherwise `setLoading(true)` and a new fetch (a new
run with a fresh, uncancelled flag). -/
def installToken (t : Option String) (s : Sys) : Sys :=
  let runs := s.runs.map cancelRun
  if jsTruthy t then
    { auth := { s.auth with loading := true }, runs := runs ++ [⟨t, false⟩] }
  else
    { auth := { s.auth with user := none }, runs := runs }

/-- Arrival of the `/auth/me` reply belonging to the `i`-th effect run. -/
def arriveReply (i : Nat) (rep : FetchReply) (s : Sys) : Sys :=
  match s.runs.get? i with
  | some r => { s with auth := applyReply r rep s.auth }
  | none => s

/-- The user state a reply commits when it is not cancelled. -/
def expectedUser : FetchReply → Option Profile
  | .ok p => some p
  | .fail _ => none

/-- C4: when token `A` and then token `B` are installed in succession,
run 0 (A's fetch) is cancelled by B's installation, so its reply commits
neither user, nor error, nor loading — the system state is unchanged by
it — and in both arrival orders the final committed user is exactly the
one of B's reply, with the final states of the two interleavings equal. -/
theorem C4_latest_token_wins (s0 : AuthState) (A B : String) (repA repB : FetchReply)
    (hA : A ≠ "") (hB : B ≠ "") :
    let s2 := installToken (some B) (installToken (some A) ⟨s0, []⟩)
    arriveReply 0 repA s2 = s2 ∧
    arriveReply 1 repB (arriveReply 0 repA s2)
      = arriveReply 0 repA (arriveReply 1 repB s2) ∧
    (arriveReply 1 repB (arriveReply 0 repA s2)).auth.user = expectedUser repB := by
  intro s2
  have hs2 : s2 = ⟨⟨s0.user, s0.error, true⟩, [⟨some A, true⟩, ⟨some B, false⟩]⟩ := by
    show installToken (some B) (installToken (some A) ⟨s0, []⟩) = _
    simp [installToken, hA, hB, cancelRun]
  have hstale : ∀ t : Sys, t.runs = [⟨some A, true⟩, ⟨some B, false⟩] →
      arriveReply 0 repA t = t := by
    intro t ht
    simp [arriveReply, ht, applyReply]
    rw [← ht]
  have h0 : arriveReply 0 repA s2 = s2 := hstale s2 (by rw [hs2])
  refine ⟨h0, ?_, ?_⟩
  · rw [h0, hstale (arriveReply 1 repB s2) ?_]
    rw [hs2]
    simp [arriveReply, applyReply]
  · rw [h0, hs2]
    cases repB <;> simp [arriveReply, applyReply, expectedUser]

theorem C4_latest_token_wins_witness :
    let s2 := installToken (some "tokB") (installToken (some "tokA")
      ⟨⟨none, none, false⟩, []⟩)
    arriveReply 0 (.fail "net") s2 = s2 ∧
    arriveReply 1 (.ok ⟨7, "alice", "user"⟩) (arriveReply 0 (.fail "net") s2)
      = arriveReply 0 (.fail "net") (arriveReply 1 (.ok ⟨7, "alice", "user"⟩) s2) ∧
    (arriveReply 1 (.ok ⟨7, "alice", "user"⟩)
        (arriveReply 0 (.fail "net") s2)).auth.user = some ⟨7, "alice", "user"⟩ :=
  C4_latest_token_wins ⟨none, none, false⟩ "tokA" "tokB" (.fail "net")
    (.ok ⟨7, "alice", "user"⟩) (by decide) (by decide)

/-! ## Guest upgrade handshake (`UserLogin.jsx` / `UserRegister`) -/

/-- The parsed `/guest/upgrade` response body
(`{ upgraded: bool, thread_id? }`). A `threadId` of `some 0` is JS-falsy. -/
structure UpgradeBody where
  upgraded : Bool
  threadId : Option Nat
deriving DecidableEq, Repr

/-- How the `/guest/upgrade` call can end: a 2xx response whose body
parsed to `some b` (or to `none` when malformed), a non-2xx response
(`apiFetch` throws on it in `UserLogin`; `UserRegister` checks `res.ok`),
or a thrown network error. -/
inductive UpgradeFetch
  | ok (body : Option UpgradeBody)
  | httpError (status : Nat)
  | networkError
deriving DecidableEq, Repr

/-- `attemptGuestUpgrade`: any throw or non-2xx yields `null`; otherwise
`data && data.upgraded ? data : null`. -/
def attemptGuestUpgrade : UpgradeFetch → Option UpgradeBody
  | .ok (some b) => if b.upgraded then some b else none
  | .ok none => none
  | .httpError _ => none
  | .networkError => none

/-- Where the login/registration flow navigates after the submit. -/
inductive NavTarget
  | thread (id : Nat) (fromGuestUpgrade : Bool)
  | dashboard
deriving DecidableEq, Repr

/-- The post-auth navigation decision:
`up && up.thread_id ? nav(thread, {fromGuestUpgrade:true}) : nav(dashboard)`,
with JS truthiness on `up.thread_id`. -/
def postAuthNav (r : UpgradeFetch) : NavTarget :=
  match attemptGuestUpgrade r with
  | some up =>
      match up.threadId with
      | some tid => if tid ≠ 0 then .thread tid true else .dashboard
      | none => .dashboard
  | none => .dashboard

/-- C5 counterexample: the upgrade response `{upgraded: true, thread_id: 0}`
does not navigate to thread 0 — `up.thread_id` is JS-falsy at `0`, so the
flow lands on the dashboard, refuting the claim for `t = 0`. -/
theorem C5_upgrade_nav_counterexample :
    postAuthNav (.ok (some ⟨true, some 0⟩)) = .dashboard ∧
    postAuthNav (.ok (some ⟨true, some 0⟩)) ≠ .thread 0 true := by
  decide

/-- C5 amended: for every upgrade response `{upgraded: true, thread_id: t}`
with `t` a truthy (non-zero) id, the flow navigates to thread `t` with
`fromGuestUpgrade` set; with `upgraded` false, a missing `thread_id`, a
malformed body, any non-2xx response, or a thrown network error it
navigates to the dashboard; and every outcome of the upgrade call yields
one of the two authenticated landing targets. -/
theorem C5_upgrade_nav_amended (t : Nat) (b : UpgradeBody) (st : Nat)
    (ht : t ≠ 0) (hb : b.upgraded = false) :
    postAuthNav (.ok (some ⟨true, some t⟩)) = .thread t true ∧
    postAuthNav (.ok (some b)) = .dashboard ∧
    postAuthNav (.ok (some ⟨true, none⟩)) = .dashboard ∧
    postAuthNav (.ok none) = .dashboard ∧
    postAuthNav (.httpError st) = .dashboard ∧
    postAuthNav .networkError = .dashboard ∧
    ∀ r : UpgradeFetch, postAuthNav r = .dashboard ∨
      ∃ tid, postAuthNav r = .thread tid true := by
  refine ⟨?_, ?_, rfl, rfl, rfl, rfl, ?_⟩
  · simp [postAuthNav, attemptGuestUpgrade, ht]
  · simp [postAuthNav, attemptGuestUpgrade, hb]
  · intro r
    unfold postAuthNav
    cases hup : attemptGuestUpgrade r with
    | none => exact Or.inl rfl
    | some up =>
        cases hid : up.threadId with
        | none => exact Or.inl (by simp [hid])
        | some tid =>
            by_cases h0 : tid = 0
            · exact Or.inl (by simp [hid, h0])
            · exact Or.inr ⟨tid, by simp [hid, h0]⟩

theorem C5_upgrade_nav_amended_witness :
    postAuthNav (.ok (some ⟨true, some 42⟩)) = .thread 42 true ∧
    postAuthNav (.ok (some ⟨false, none⟩)) = .dashboard ∧
    postAuthNav (.httpError 500) = .dashboard ∧
    postAuthNav .networkError = .dashboard :=
  let h := C5_upgrade_nav_amended 42 ⟨false, none⟩ 500 (by decide) rfl
  ⟨h.1, h.2.1, h.2.2.2.2.1, h.2.2.2.2.2.1⟩

end PlacesInTime
